import Mathlib

/-!
# Verification of `gui/shredder/views/editor.py` (rmlint Shredder editor view)

Shallow embedding of the control logic of the editor view:

* `RunningLabel` (the Progress Tracker): accumulates a byte-size sum while a
  script runs and renders a status markup string (`RunningLabel.push`).
* `ScriptSaverDialog` (the Save Flow): destination filename, selected format,
  save-confirm sensitivity (`update_file_suggestion`, `on_file_type_changed`,
  `on_selection_changed`).
* `RunButton`: the run control with its `dry_run` flag, `sensitive` state and
  style classes (`RunButton.set_sensitive`, the dry-run toggle).
* `EditorView`: the screen state machine (script / running / finished) driven
  by user clicks and asynchronous script events (`step`).

Python strings become `String`, `None`-able values become `Option`, the
size-index model (`model.lookup_by_path`, an external collaborator) becomes a
function `String → Option Nat` returning the entry's `Column.SIZE` byte count.
GTK signal delivery is modelled by an event guard (`can_fire`): a
`clicked`/`toggled` signal can only fire for a widget that is sensitive and
sits on the currently visible page of its `Gtk.Stack`.
-/

namespace Shredder

/-! ## External collaborators -/

/-- Size-index collaborator (`self.app_window.views['runner'].model`): resolves
a path to the `Column.SIZE` byte count of a node, or `none` when
`lookup_by_path` returns `None`. -/
def SizeModel : Type := String → Option Nat

/-- Modelled from the spec: `size_to_human_readable` lives in `shredder.util`,
which is not part of the sources here; the spec only states that it renders a
byte count human-readably (section 4.3).  We model it as an injective
byte-count rendering; no claim depends on its exact output. -/
def size_to_human_readable (n : Nat) : String :=
  toString n ++ " bytes"

/-- `GLib.markup_escape_text` on a single character: GLib escapes the five
markup metacharacters `&`, `<`, `>`, the apostrophe (code 39) and the double
quote (code 34). -/
def markup_escape_char (c : Char) : String :=
  if c = '&' then "&amp;"
  else if c = '<' then "&lt;"
  else if c = '>' then "&gt;"
  else if c.toNat = 39 then "&apos;"
  else if c.toNat = 34 then "&quot;"
  else String.singleton c

/-- `GLib.markup_escape_text`: escape every markup metacharacter of a path. -/
def markup_escape_text (s : String) : String :=
  String.join (s.toList.map markup_escape_char)

/-- Python `str.lower()` (the prefixes compared with it are ASCII words such
as `keeping`, `removing`): lower-case every character. -/
def py_lower (s : String) : String :=
  String.mk (s.toList.map Char.toLower)

/-- Python `or` on a string operand: the right operand replaces a falsy
(empty) left operand. -/
def py_or_str (a b : String) : String :=
  if a.isEmpty then b else a

/-- Python `or` applied to an optional string left operand (`None` and `''`
are falsy). -/
def py_or_opt (a : Option String) (b : String) : String :=
  match a with
  | none => b
  | some s => if s.isEmpty then b else s

/-- Python truthiness of an optional string (`bool(self.get_filename())`). -/
def py_truthy (a : Option String) : Bool :=
  match a with
  | none => false
  | some s => !s.isEmpty

/-! ## RunningLabel (Progress Tracker) -/

/-- The module-level `REMOVED_LABEL` template, already applied to its three
substitutions `s` (human-readable size), `t` (the event prefix) and `p` (the
escaped path):
`'<big>\x7bs\x7d</big><small> removed</small>\n<small>\x7bt\x7d</small> <b><big>\x7bp\x7d</big></b>\n'`. -/
def REMOVED_LABEL (s t p : String) : String :=
  "<big>" ++ s ++ "</big><small> removed</small>\n<small>" ++ t ++
    "</small> <b><big>" ++ p ++ "</big></b>\n"

/-- State of a `RunningLabel`: the private `_size_sum` counter and the markup
last passed to `set_markup`. -/
structure RunningLabel where
  sizeSum : Nat
  markup : String
deriving DecidableEq

/-- `RunningLabel.push(self, model, prefix, path)`:

```python
if prefix.lower() == 'keeping':
    return
text = REMOVED_LABEL.format(t=prefix, s=size_to_human_readable(self._size_sum),
                            p=GLib.markup_escape_text(path))
self.set_markup(text)
if model is None:
    return
node = model.lookup_by_path(path)
if node is not None:
    self._size_sum += node[Column.SIZE]
```
-/
def RunningLabel.push (st : RunningLabel) (model : Option SizeModel)
    (pre path : String) : RunningLabel :=
  if py_lower pre = "keeping" then st
  else
    let text := REMOVED_LABEL (size_to_human_readable st.sizeSum) pre
      (markup_escape_text path)
    let st1 : RunningLabel := { st with markup := text }
    match model with
    | none => st1
    | some m =>
      match m path with
      | some sz => { st1 with sizeSum := st1.sizeSum + sz }
      | none => st1

/-- `RunningLabel.__init__`: `self._size_sum = 0` followed by
`self.push(None, '', '')`; the label text starts out empty. -/
def RunningLabel.init : RunningLabel :=
  RunningLabel.push { sizeSum := 0, markup := "" } none "" ""

/-- Folding a whole stream of `line-read` events `(prefix, path)` into the
label, in order. -/
def RunningLabel.pushAll (st : RunningLabel) (model : Option SizeModel)
    (evs : List (String × String)) : RunningLabel :=
  evs.foldl (fun s e => s.push model e.1 e.2) st

/-! ## ScriptSaverDialog (Save Flow)

`get_filename()` (`Gtk.FileChooser`) is the destination path currently
selected or typed by the user — `none` while nothing has been chosen;
`set_current_name` fills the chooser's name entry with a suggested name.
Both live in the dialog state below; user typing/selection is modelled by
`set_typed_name`, which records the typed path in both. -/

/-- Python `s.rsplit('.', 1)` as used in `on_file_type_changed`: when `s`
contains a dot, unpacking the two pieces around the LAST dot succeeds; when it
does not, the single-element list fails to unpack into `path, ext`, which the
source catches as `ValueError` — modelled by `none`. -/
def rsplit_dot1 (s : String) : Option (String × String) :=
  if s.toList.contains '.' then
    let rev := s.toList.reverse
    some (String.mk ((rev.dropWhile (fun c => !(c == '.'))).drop 1).reverse,
          String.mk ((rev.takeWhile (fun c => !(c == '.'))).reverse))
  else none

/-- State of a `ScriptSaverDialog`: the selected choice of the `file_type`
`MultipleChoiceButton`, the chooser's current destination path
(`get_filename()`), and the name entry (`set_current_name`). -/
structure ScriptSaverDialog where
  fileTypeChoice : Option String
  filename : Option String
  currentName : String
deriving DecidableEq

/-- Dialog plus the `confirm` (`Save`) button's sensitivity. -/
structure SaverState where
  dialog : ScriptSaverDialog
  confirmSensitive : Bool
deriving DecidableEq

/-- `self.set_current_name(name)`. -/
def set_current_name (st : ScriptSaverDialog) (name : String) :
    ScriptSaverDialog :=
  { st with currentName := name }

/-- The user types (or picks) a destination path: `get_filename()` now
returns it and the name entry shows it. -/
def set_typed_name (st : ScriptSaverDialog) (name : String) :
    ScriptSaverDialog :=
  { st with filename := some name, currentName := name }

/-- `ScriptSaverDialog.update_file_suggestion`:

```python
file_type = self.file_type.get_selected_choice() or 'sh'
self.set_current_name(time.strftime('rmlint-%FT%T%z.' + file_type))
```

`time.strftime` is the C library's clock formatter; neither `rmlint-` nor the
file type contains `%`, so its output is `"rmlint-" ++ ts ++ "." ++ file_type`
where `ts` is the formatted current time (`%FT%T%z`), taken as a parameter. -/
def update_file_suggestion (ts : String) (st : ScriptSaverDialog) :
    ScriptSaverDialog :=
  let file_type := py_or_opt st.fileTypeChoice "sh"
  set_current_name st ("rmlint-" ++ ts ++ "." ++ file_type)

/-- `ScriptSaverDialog.__init__` (the parts touching this state): the
`file_type` chooser starts on `sh`, `self.confirm.set_sensitive(False)`, no
destination path is selected yet, and `self.update_file_suggestion()` runs
last. -/
def saver_init (ts : String) : SaverState :=
  { dialog := update_file_suggestion ts
      { fileTypeChoice := some "sh", filename := none, currentName := "" }
    confirmSensitive := false }

/-- `ScriptSaverDialog.on_file_type_changed`:

```python
current_path = self.get_filename()
if not current_path:
    self.update_file_suggestion()
else:
    try:
        path, ext = current_path.rsplit('.', 1)
        self.set_current_name(path + '.' + self.file_type.get_selected_choice() or '')
    except ValueError:
        # No extension. Leave it.
        pass
```

Note the precedence: the source computes `(path + '.' + choice) or ''`.  If
`get_selected_choice()` returned `None`, `path + '.' + None` would raise an
uncaught `TypeError`; that branch is the `Except.error` case. -/
def on_file_type_changed (ts : String) (st : ScriptSaverDialog) :
    Except String ScriptSaverDialog :=
  let current_path := st.filename
  if !py_truthy current_path then
    Except.ok (update_file_suggestion ts st)
  else
    match rsplit_dot1 ((current_path.getD "")) with
    | some (path, _ext) =>
      match st.fileTypeChoice with
      | some choice =>
        Except.ok (set_current_name st (py_or_str (path ++ "." ++ choice) ""))
      | none => Except.error "TypeError: cannot concatenate str and NoneType"
    | none => Except.ok st

/-- The user picks a different format: the `MultipleChoiceButton` records the
new selection, then emits `row-selected`, invoking `on_file_type_changed`. -/
def select_format (fmt ts : String) (st : ScriptSaverDialog) :
    Except String ScriptSaverDialog :=
  on_file_type_changed ts { st with fileTypeChoice := some fmt }

/-- `ScriptSaverDialog.on_selection_changed`:
`self.confirm.set_sensitive(bool(self.get_filename()))`. -/
def on_selection_changed (st : SaverState) : SaverState :=
  { st with confirmSensitive := py_truthy st.dialog.filename }

/-! ## RunButton and the EditorView screen state machine -/

/-- Presence of the two action style classes on a widget's style context
(`STYLE_CLASS_SUGGESTED_ACTION`, `STYLE_CLASS_DESTRUCTIVE_ACTION`). -/
structure StyleCtx where
  suggested : Bool
  destructive : Bool
deriving DecidableEq

/-- `RunButton._toggle_dry_run` on one widget's context: remove one action
class, add the other, depending on the toggle's active state. -/
def styleFor (active : Bool) : StyleCtx :=
  if active then { suggested := true, destructive := false }
  else { suggested := false, destructive := true }

/-- The `RunButton` box: the `dry_run` GObject property (bidirectionally bound
to the toggle's `active` state, so the two are identified here), the box's
sensitivity, and the style contexts of its two children (`self.button`,
`self.state`). -/
structure RunButton where
  dryRun : Bool
  sensitive : Bool
  buttonCtx : StyleCtx
  stateCtx : StyleCtx
deriving DecidableEq

/-- `RunButton._toggle_dry_run(self, btn)`: restyle both children from the
toggle's active state (= `dry_run`). -/
def RunButton.toggle_dry_run_style (b : RunButton) : RunButton :=
  { b with buttonCtx := styleFor b.dryRun, stateCtx := styleFor b.dryRun }

/-- `RunButton.__init__`: `dry_run` defaults to `True`,
`self.state.set_active(True)` (a no-op on the already-synced binding), then
`self._toggle_dry_run(self.state)`; a fresh widget is sensitive. -/
def RunButton.init : RunButton :=
  RunButton.toggle_dry_run_style
    { dryRun := true, sensitive := true
      buttonCtx := { suggested := false, destructive := false }
      stateCtx := { suggested := false, destructive := false } }

/-- `RunButton.set_sensitive(self, is_sensitive)`: set the box's sensitivity;
when disabling, strip both action classes from the toggle's context, when
enabling, re-run `_toggle_dry_run`. -/
def RunButton.set_sensitive (b : RunButton) (is_sensitive : Bool) : RunButton :=
  let b1 := { b with sensitive := is_sensitive }
  if !is_sensitive then
    { b1 with stateCtx := { suggested := false, destructive := false } }
  else
    b1.toggle_dry_run_style

/-- The user clicks the dry-run toggle: `active` flips, `toggled` fires
`_toggle_dry_run`, and the binding mirrors the flip into `dry_run`. -/
def RunButton.user_toggle (b : RunButton) : RunButton :=
  RunButton.toggle_dry_run_style { b with dryRun := !b.dryRun }

/-- Pages of the right-hand `Gtk.Stack` of the editor view (`'danger'` is the
script/run-controls screen, `'progressing'` the spinner, `'finished'` the
all-went-well screen). -/
inductive StackPage
  | danger
  | progressing
  | finished
deriving DecidableEq

/-- Pages of the left-hand stack (`'script'`, `'chooser'`, `'list'`). -/
inductive LeftPage
  | script
  | chooser
  | list
deriving DecidableEq

/-- Children of the severity icon stack (`'warning'` / `'danger'`). -/
inductive IconPage
  | warning
  | danger
deriving DecidableEq

/-- State of the `EditorView`: the run button, the two screen stacks, the
severity icon, the progress label, the window subtitle, the text buffer and
the current script's content (`Script.read()`), whether a run is in flight
(i.e. a `script-finished` signal is still pending), and the log of `dry_run`
arguments passed to `Script.run`. -/
structure EditorView where
  runButton : RunButton
  stack : StackPage
  leftStack : LeftPage
  icon : IconPage
  runLabel : RunningLabel
  subTitle : String
  buffer : String
  scriptContent : String
  scriptRunning : Bool
  runRequests : List Bool
deriving DecidableEq

/-- `EditorView.__init__` (the state-relevant parts): a dummy script
(`Script.create_dummy()`, content opaque), the right stack shows its first
child `'danger'`, `self.left_stack.set_visible_child_name('script')`, the icon
stack shows its first child `'warning'`, a fresh `RunningLabel`, and no run
has been requested. -/
def EditorView.init (dummy : String) : EditorView :=
  { runButton := RunButton.init
    stack := StackPage.danger
    leftStack := LeftPage.script
    icon := IconPage.warning
    runLabel := RunningLabel.init
    subTitle := ""
    buffer := ""
    scriptContent := dummy
    scriptRunning := false
    runRequests := [] }

/-- `EditorView.switch_to_script`: set the subtitle, show the script page on
the left, refill the buffer from `self.script.read()` and show the `'danger'`
page on the right (style and language re-application are display-only). -/
def EditorView.switch_to_script (v : EditorView) : EditorView :=
  { v with subTitle := "Check the results"
           leftStack := LeftPage.script
           buffer := v.scriptContent
           stack := StackPage.danger }

/-- `EditorView._switch_back`: `self.run_button.set_sensitive(False)` then
`self.switch_to_script()`. -/
def EditorView.switch_back (v : EditorView) : EditorView :=
  EditorView.switch_to_script
    { v with runButton := v.runButton.set_sensitive false }

/-- `EditorView.on_run_script_clicked`: set the subtitle, show the spinner on
the right and the progress list on the left, connect the `line-read` and
`script-finished` handlers (modelled by `scriptRunning := true`), and call
`self.script.run(dry_run=True)` — the literal `True` of editor.py line 531 is
appended to the run-request log. -/
def EditorView.on_run_script_clicked (v : EditorView) : EditorView :=
  { v with subTitle := "Shreddering. Cross fingers!"
           stack := StackPage.progressing
           leftStack := LeftPage.list
           scriptRunning := true
           runRequests := v.runRequests ++ [true] }

/-- `EditorView.on_view_enter`: `self.run_button.set_sensitive(True)`, re-read
the script from the runner view when it has one, and `switch_to_script`. -/
def EditorView.on_view_enter (v : EditorView) (runnerScript : Option String) :
    EditorView :=
  let v1 := { v with runButton := v.runButton.set_sensitive true }
  let v2 := match runnerScript with
            | some s => { v1 with scriptContent := s }
            | none => v1
  v2.switch_to_script

/-- The user clicks the dry-run toggle: `_toggle_dry_run` runs and the
`notify::dry-run` handler switches the severity icon (`'warning'` when dry,
`'danger'` when real). -/
def EditorView.on_toggle_dry_run (v : EditorView) : EditorView :=
  let b := v.runButton.user_toggle
  { v with runButton := b
           icon := if b.dryRun then IconPage.warning else IconPage.danger }

/-- Events driving the editor view: user clicks (`runClick` on the run button,
`toggleDryRun` on the dry-run toggle, `goBack` on the finished screen's
button), the runner's asynchronous `script-finished` signal, and the host
application entering the view (carrying the runner view's script content, when
it has one). -/
inductive Event
  | runClick
  | toggleDryRun
  | goBack
  | scriptFinished
  | viewEnter (runnerScript : Option String)
deriving DecidableEq

/-- Whether an event can fire in a state.  A `clicked`/`toggled` signal needs
its widget sensitive and on the visible page of its stack: the run button and
the dry-run toggle live on the `'danger'` page, the go-back button on the
`'finished'` page.  `script-finished` can only arrive while a run is in
flight; the host may enter the view at any time. -/
def can_fire (e : Event) (v : EditorView) : Bool :=
  match e with
  | Event.runClick => v.runButton.sensitive && v.stack == StackPage.danger
  | Event.toggleDryRun => v.runButton.sensitive && v.stack == StackPage.danger
  | Event.goBack => v.stack == StackPage.finished
  | Event.scriptFinished => v.scriptRunning
  | Event.viewEnter _ => true

/-- One step of the editor view: dispatch a fireable event to its handler
(`script-finished` runs the lambda of editor.py lines 527-530, which shows the
`'finished'` page; the pending signal is consumed). -/
def step (e : Event) (v : EditorView) : EditorView :=
  if can_fire e v then
    match e with
    | Event.runClick => v.on_run_script_clicked
    | Event.toggleDryRun => v.on_toggle_dry_run
    | Event.goBack => v.switch_back
    | Event.scriptFinished =>
        { v with stack := StackPage.finished, scriptRunning := false }
    | Event.viewEnter rs => v.on_view_enter rs
  else v

/-- Running a whole event trace, oldest event first. -/
def run_events (es : List Event) (v : EditorView) : EditorView :=
  es.foldl (fun s e => step e s) v

/-- The view right after the user clicked Run on a freshly constructed view:
the spinner screen is showing and a run is in flight. -/
def runningView : EditorView :=
  step Event.runClick (EditorView.init "")

/-- The view after the user switched the toggle to a real (non-dry) run. -/
def dryOffView : EditorView :=
  step Event.toggleDryRun (EditorView.init "")

/-- The view on the finished screen: Run clicked, then `script-finished`. -/
def finishedView : EditorView :=
  step Event.scriptFinished runningView

/-! ## Lemmas -/

/-- A `keeping` event (case-insensitively) leaves the whole label state
untouched: `push` returns before `set_markup` and before the size lookup. -/
lemma push_keeping_fix (st : RunningLabel) (model : Option SizeModel)
    (pre path : String) (h : py_lower pre = "keeping") :
    st.push model pre path = st := by
  simp [RunningLabel.push, h]

/-- Python `x or ''` is the identity on strings: when `x` is falsy (empty)
the result `''` is `x` itself. -/
lemma py_or_str_empty_right (x : String) : py_or_str x "" = x := by
  unfold py_or_str
  split
  · rename_i h
    exact ((String.isEmpty_iff x).mp h).symm
  · rfl

/-- A string that `rsplit('.', 1)` splits successfully contains a dot, so it
is in particular non-empty (hence truthy). -/
lemma rsplit_dot1_nonempty (s : String) (p : String × String)
    (h : rsplit_dot1 s = some p) : s.isEmpty = false := by
  by_cases he : s.isEmpty = true
  · have hs : s = "" := (String.isEmpty_iff s).mp he
    subst hs
    have hnone : rsplit_dot1 "" = none := by decide
    rw [hnone] at h
    exact Option.noConfusion h
  · simpa using he

/-- No event other than `viewEnter` ever re-enables the run button. -/
lemma step_preserves_insensitive (v : EditorView) (e : Event)
    (he : ∀ rs, e ≠ Event.viewEnter rs)
    (h : v.runButton.sensitive = false) :
    (step e v).runButton.sensitive = false := by
  cases e with
  | runClick => simp [step, can_fire, h]
  | toggleDryRun => simp [step, can_fire, h]
  | goBack =>
    by_cases hc : can_fire Event.goBack v = true
    · simp [step, hc, EditorView.switch_back, EditorView.switch_to_script,
        RunButton.set_sensitive]
    · simp [step, hc, h]
  | scriptFinished =>
    by_cases hc : can_fire Event.scriptFinished v = true
    · simp [step, hc, h]
    · simp [step, hc, h]
  | viewEnter rs => exact absurd rfl (he rs)

/-- The run button stays disabled across a whole trace without `viewEnter`. -/
lemma run_events_preserves_insensitive (es : List Event) (v : EditorView)
    (h : v.runButton.sensitive = false)
    (hes : ∀ e ∈ es, ∀ rs, e ≠ Event.viewEnter rs) :
    (run_events es v).runButton.sensitive = false := by
  induction es generalizing v with
  | nil => exact h
  | cons e rest ih =>
    have h1 : (step e v).runButton.sensitive = false :=
      step_preserves_insensitive v e (hes e (List.mem_cons_self e rest)) h
    exact ih (step e v) h1 (fun x hx => hes x (List.mem_cons_of_mem e hx))

/-- `on_view_enter` always leaves the run button enabled. -/
lemma view_enter_enables (v : EditorView) (rs : Option String) :
    (step (Event.viewEnter rs) v).runButton.sensitive = true := by
  cases rs <;>
    simp [step, can_fire, EditorView.on_view_enter, EditorView.switch_to_script,
      RunButton.set_sensitive, RunButton.toggle_dry_run_style]

/-! ## Claims -/

/-- C3: for every progress event whose prefix is not case-insensitively
`keeping`, fed to `push` with a size-index model: if the model resolves the
event's path to an entry, `sizeSum` increases by exactly that entry's size; if
the path does not resolve, `sizeSum` is unchanged (and, `push` being a total
function, no error is raised). -/
theorem C3_nonkeeping_size_accounting (m : SizeModel) (st : RunningLabel)
    (pre path : String) (h : py_lower pre ≠ "keeping") :
    (∀ sz, m path = some sz →
      (st.push (some m) pre path).sizeSum = st.sizeSum + sz) ∧
    (m path = none → (st.push (some m) pre path).sizeSum = st.sizeSum) := by
  constructor
  · intro sz hsz
    simp [RunningLabel.push, h, hsz]
  · intro hnone
    simp [RunningLabel.push, h, hnone]

/-- Witness for C3 at a concrete model resolving `/a` to 7 bytes but not
resolving `/b`. -/
theorem C3_nonkeeping_size_accounting_witness :
    (py_lower "Removed" ≠ "keeping") ∧
    ((fun p => if p = "/a" then some 7 else none : SizeModel) "/a" = some 7) ∧
    ((RunningLabel.init.push
        (some (fun p => if p = "/a" then some 7 else none)) "Removed" "/a").sizeSum
      = RunningLabel.init.sizeSum + 7) ∧
    ((fun p => if p = "/a" then some 7 else none : SizeModel) "/b" = none) ∧
    ((RunningLabel.init.push
        (some (fun p => if p = "/a" then some 7 else none)) "Removed" "/b").sizeSum
      = RunningLabel.init.sizeSum) :=
  ⟨by decide, by decide,
   (C3_nonkeeping_size_accounting _ RunningLabel.init "Removed" "/a"
      (by decide)).1 7 (by decide),
   by decide,
   (C3_nonkeeping_size_accounting _ RunningLabel.init "Removed" "/b"
      (by decide)).2 (by decide)⟩

/-- C4: a sequence of progress events whose prefixes are all case-insensitively
`keeping` leaves `sizeSum` unchanged. -/
theorem C4_keeping_sequence_size_invariant (model : Option SizeModel)
    (st : RunningLabel) (evs : List (String × String))
    (h : ∀ e ∈ evs, py_lower e.1 = "keeping") :
    (st.pushAll model evs).sizeSum = st.sizeSum := by
  induction evs generalizing st with
  | nil => rfl
  | cons e rest ih =>
    have he : py_lower e.1 = "keeping" := h e (List.mem_cons_self e rest)
    have hrest : ∀ x ∈ rest, py_lower x.1 = "keeping" :=
      fun x hx => h x (List.mem_cons_of_mem e hx)
    show ((st.push model e.1 e.2).pushAll model rest).sizeSum = st.sizeSum
    rw [push_keeping_fix st model e.1 e.2 he]
    exact ih st hrest

/-- Witness for C4 on a concrete two-event all-`keeping` stream. -/
theorem C4_keeping_sequence_size_invariant_witness :
    (∀ e ∈ [("keeping", "/a"), ("Keeping", "/b")],
      py_lower (Prod.fst e) = "keeping") ∧
    (RunningLabel.init.pushAll none [("keeping", "/a"), ("Keeping", "/b")]).sizeSum
      = RunningLabel.init.sizeSum :=
  ⟨by decide,
   C4_keeping_sequence_size_invariant none RunningLabel.init
     [("keeping", "/a"), ("Keeping", "/b")] (by decide)⟩

/-- C5 counterexample: a `keeping` event does NOT update the displayed text.
`push` returns before `set_markup`, so after pushing `("Keeping", "/x")` the
whole label state — markup included — is unchanged, and in particular the
markup is not the rendering of this event's prefix and path. -/
theorem C5_keeping_updates_text_counterexample :
    RunningLabel.init.push none "Keeping" "/x" = RunningLabel.init ∧
    (RunningLabel.init.push none "Keeping" "/x").markup
      ≠ REMOVED_LABEL (size_to_human_readable RunningLabel.init.sizeSum)
          "Keeping" (markup_escape_text "/x") := by
  refine ⟨?_, by decide⟩
  exact push_keeping_fix RunningLabel.init none "Keeping" "/x" (by decide)

/-- C5 amended: for every progress event whose prefix case-insensitively
equals `keeping`, the Progress Tracker ignores the event entirely: neither
`sizeSum` nor the displayed markup changes. -/
theorem C5_keeping_ignored (model : Option SizeModel) (st : RunningLabel)
    (pre path : String) (h : py_lower pre = "keeping") :
    st.push model pre path = st :=
  push_keeping_fix st model pre path h

/-- Witness for the amended C5 at a concrete `Keeping` event. -/
theorem C5_keeping_ignored_witness :
    (py_lower "Keeping" = "keeping") ∧
    RunningLabel.init.push none "Keeping" "/y" = RunningLabel.init :=
  ⟨by decide, C5_keeping_ignored none RunningLabel.init "Keeping" "/y" (by decide)⟩

/-- C9: for a non-`keeping` event with a resolvable path, the markup rendered
by `push` shows the `sizeSum` value from BEFORE the entry's size is added
(`set_markup` runs before the lookup), so afterwards the internal `sizeSum`
exceeds the displayed one by exactly the most recent event's size. -/
theorem C9_display_lags_by_last_event (m : SizeModel) (st : RunningLabel)
    (pre path : String) (sz : Nat) (h : py_lower pre ≠ "keeping")
    (hsz : m path = some sz) :
    (st.push (some m) pre path).markup
      = REMOVED_LABEL (size_to_human_readable st.sizeSum) pre
          (markup_escape_text path) ∧
    (st.push (some m) pre path).sizeSum = st.sizeSum + sz := by
  simp [RunningLabel.push, h, hsz]

/-- Witness for C9 at a concrete event resolving to 5 bytes. -/
theorem C9_display_lags_by_last_event_witness :
    (py_lower "removed" ≠ "keeping") ∧
    ((fun p => if p = "/w" then some 5 else none : SizeModel) "/w" = some 5) ∧
    ((RunningLabel.init.push
        (some (fun p => if p = "/w" then some 5 else none)) "removed" "/w").markup
      = REMOVED_LABEL (size_to_human_readable RunningLabel.init.sizeSum) "removed"
          (markup_escape_text "/w") ∧
     (RunningLabel.init.push
        (some (fun p => if p = "/w" then some 5 else none)) "removed" "/w").sizeSum
      = RunningLabel.init.sizeSum + 5) :=
  ⟨by decide, by decide,
   C9_display_lags_by_last_event _ RunningLabel.init "removed" "/w" 5
     (by decide) (by decide)⟩

/-- C6: the save-confirm control starts out disabled
(`self.confirm.set_sensitive(False)` in `__init__`), and after every
`selection-changed` event its sensitivity equals the truthiness of the current
filename; in particular it is enabled right after a non-empty destination path
is typed, and disabled while the path is empty or absent. -/
theorem C6_confirm_enabled_iff_filename (ts : String) (st : SaverState)
    (s : String) :
    (saver_init ts).confirmSensitive = false ∧
    (on_selection_changed st).confirmSensitive = py_truthy st.dialog.filename ∧
    (on_selection_changed
        { st with dialog := set_typed_name st.dialog s }).confirmSensitive
      = !s.isEmpty := by
  exact ⟨rfl, rfl, rfl⟩

/-- C7: the fresh dialog starts out suggesting `rmlint-<timestamp>.sh` (the
`sh` instance of the pattern); from ANY dialog state with no typed destination
path, changing to ANY non-empty format `fmt` re-suggests a name matching
`rmlint-<timestamp>.<fmt>` for that format; and from ANY dialog state with ANY
typed name carrying an extension (`s` rsplits into `base` and `ext`),
switching to `fmt` replaces only the extension, yielding `base` + `.` + `fmt`
with the base name preserved. -/
theorem C7_suggestion_and_extension_swap (ts ts2 : String)
    (st : ScriptSaverDialog) (fmt : String) (hfmt : fmt.isEmpty = false)
    (huntyped : py_truthy st.filename = false)
    (s base ext : String) (hsplit : rsplit_dot1 s = some (base, ext)) :
    (saver_init ts).dialog.currentName = "rmlint-" ++ ts ++ "." ++ "sh" ∧
    (∃ d, select_format fmt ts2 st = Except.ok d ∧
      d.currentName = "rmlint-" ++ ts2 ++ "." ++ fmt) ∧
    (∃ d, select_format fmt ts2 (set_typed_name st s) = Except.ok d ∧
      d.currentName = base ++ "." ++ fmt) := by
  have hse : s.isEmpty = false := rsplit_dot1_nonempty s (base, ext) hsplit
  refine ⟨rfl, ?_, ?_⟩
  · refine ⟨set_current_name { st with fileTypeChoice := some fmt }
        ("rmlint-" ++ ts2 ++ "." ++ fmt), ?_, rfl⟩
    simp [select_format, on_file_type_changed, huntyped,
      update_file_suggestion, py_or_opt, hfmt]
  · refine ⟨set_current_name
        { set_typed_name st s with fileTypeChoice := some fmt }
        (base ++ "." ++ fmt), ?_, rfl⟩
    simp [select_format, on_file_type_changed, set_typed_name, py_truthy,
      hse, hsplit, py_or_str_empty_right, set_current_name]

/-- Witness for C7: the fresh dialog (no typed name) with format `json`, and
the typed name `foo.sh`. -/
theorem C7_suggestion_and_extension_swap_witness :
    ("json".isEmpty = false) ∧
    (py_truthy (saver_init "T").dialog.filename = false) ∧
    (rsplit_dot1 "foo.sh" = some ("foo", "sh")) ∧
    ((saver_init "T").dialog.currentName = "rmlint-" ++ "T" ++ "." ++ "sh" ∧
     (∃ d, select_format "json" "T2" (saver_init "T").dialog = Except.ok d ∧
       d.currentName = "rmlint-" ++ "T2" ++ "." ++ "json") ∧
     (∃ d, select_format "json" "T2"
         (set_typed_name (saver_init "T").dialog "foo.sh") = Except.ok d ∧
       d.currentName = "foo" ++ "." ++ "json")) :=
  ⟨rfl, rfl, by decide,
   C7_suggestion_and_extension_swap "T" "T2" (saver_init "T").dialog "json"
     rfl rfl "foo.sh" "foo" "sh" (by decide)⟩

/-- C8: a format change with a typed destination filename containing no dot
leaves the whole dialog state exactly unchanged and raises no exception: the
`rsplit('.', 1)` unpacking fails with `ValueError`, which the `except` clause
swallows (`# No extension. Leave it.`). -/
theorem C8_no_extension_leaves_filename (ts : String)
    (st : ScriptSaverDialog) (s : String) (h1 : st.filename = some s)
    (h2 : s.isEmpty = false) (h3 : ¬ ('.' ∈ s.toList)) :
    on_file_type_changed ts st = Except.ok st := by
  have h4 : ¬ ('.' ∈ s.data) := by
    simpa [String.toList] using h3
  simp [on_file_type_changed, h1, py_truthy, h2, rsplit_dot1, h4,
    String.toList]

/-- Witness for C8 at the dot-free typed filename `foo`. -/
theorem C8_no_extension_leaves_filename_witness :
    ((set_typed_name (saver_init "T").dialog "foo").filename = some "foo") ∧
    ("foo".isEmpty = false) ∧
    (¬ ('.' ∈ "foo".toList)) ∧
    on_file_type_changed "T2" (set_typed_name (saver_init "T").dialog "foo")
      = Except.ok (set_typed_name (saver_init "T").dialog "foo") :=
  ⟨rfl, rfl, by decide,
   C8_no_extension_leaves_filename "T2" _ "foo" rfl rfl (by decide)⟩

/-- C1 (code bug): `on_run_script_clicked` invokes
`self.script.run(dry_run=True)` with a hard-coded literal (editor.py line
531): even when the Run Mode Toggle has been switched to a real run
(`dry_run = False` at click time), the run request still carries `True`,
contradicting the intended pass-through of the click-time toggle value (the
toggle, its destructive styling and the danger icon otherwise serve no
purpose, and a real run is unreachable). -/
theorem C1_run_request_ignores_toggle :
    dryOffView.runButton.dryRun = false ∧
    (step Event.runClick dryOffView).runRequests = [true] :=
  ⟨rfl, rfl⟩

/-- C2 counterexample: right after Run is clicked the view is on the
`'progressing'` screen, yet the run control's `sensitive` flag is still `true`
— `on_run_script_clicked` never calls `set_sensitive(False)`, so the control
is NOT disabled while the state is Running. -/
theorem C2_running_disables_run_counterexample :
    runningView.stack = StackPage.progressing ∧
    runningView.runButton.sensitive = true :=
  ⟨rfl, rfl⟩

/-- C2 amended: while the screen state is Running the Run control cannot be
triggered — not because it is made insensitive (it is not), but because the
screen stack shows the spinner page, on which the control is not visible; and
no event other than `script-finished` (or the host re-entering the view)
leaves the Running screen, so re-triggering Run during the run is
impossible. -/
theorem C2_running_blocks_rerun (v : EditorView)
    (h : v.stack = StackPage.progressing) :
    can_fire Event.runClick v = false ∧
    ∀ e, e ≠ Event.scriptFinished → (∀ rs, e ≠ Event.viewEnter rs) →
      (step e v).stack = StackPage.progressing := by
  constructor
  · simp [can_fire, h]
  · intro e h1 h2
    cases e with
    | runClick => simp [step, can_fire, h]
    | toggleDryRun => simp [step, can_fire, h]
    | goBack => simp [step, can_fire, h]
    | scriptFinished => exact absurd rfl h1
    | viewEnter rs => exact absurd rfl (h2 rs)

/-- Witness for the amended C2: on the concrete running view a further Run
click cannot fire and changes nothing. -/
theorem C2_running_blocks_rerun_witness :
    runningView.stack = StackPage.progressing ∧
    can_fire Event.runClick runningView = false ∧
    (step Event.runClick runningView).stack = StackPage.progressing :=
  ⟨rfl, (C2_running_blocks_rerun runningView rfl).1,
   (C2_running_blocks_rerun runningView rfl).2 Event.runClick
     (fun hco => Event.noConfusion hco) (fun _ hco => Event.noConfusion hco)⟩

/-- C10: the Finished-to-Script transition (`_switch_back`, the "Go back"
click) disables the Run control as a side effect and returns to the script
screen; across any following event trace that does not re-enter the view the
control stays insensitive, so Run cannot fire, and the next `on_view_enter`
re-enables it. -/
theorem C10_goback_disables_until_reenter (v : EditorView) (es : List Event)
    (rs : Option String) (h : v.stack = StackPage.finished)
    (hes : ∀ e ∈ es, ∀ r, e ≠ Event.viewEnter r) :
    ((step Event.goBack v).runButton.sensitive = false ∧
     (step Event.goBack v).stack = StackPage.danger) ∧
    (run_events es (step Event.goBack v)).runButton.sensitive = false ∧
    can_fire Event.runClick (run_events es (step Event.goBack v)) = false ∧
    (step (Event.viewEnter rs)
        (run_events es (step Event.goBack v))).runButton.sensitive = true := by
  have hgb : step Event.goBack v = v.switch_back := by
    simp [step, can_fire, h]
  have hsens : (step Event.goBack v).runButton.sensitive = false := by
    rw [hgb]
    simp [EditorView.switch_back, EditorView.switch_to_script,
      RunButton.set_sensitive]
  have hstack : (step Event.goBack v).stack = StackPage.danger := by
    rw [hgb]
    simp [EditorView.switch_back, EditorView.switch_to_script]
  have hrun : (run_events es (step Event.goBack v)).runButton.sensitive
      = false :=
    run_events_preserves_insensitive es (step Event.goBack v) hsens hes
  refine ⟨⟨hsens, hstack⟩, hrun, ?_, view_enter_enables _ rs⟩
  simp [can_fire, hrun]

/-- Witness for C10 on the concrete finished view, with one attempted Run
click after going back. -/
theorem C10_goback_disables_until_reenter_witness :
    (finishedView.stack = StackPage.finished) ∧
    (((step Event.goBack finishedView).runButton.sensitive = false ∧
      (step Event.goBack finishedView).stack = StackPage.danger) ∧
     (run_events [Event.runClick]
        (step Event.goBack finishedView)).runButton.sensitive = false ∧
     can_fire Event.runClick
        (run_events [Event.runClick] (step Event.goBack finishedView)) = false ∧
     (step (Event.viewEnter none)
        (run_events [Event.runClick]
          (step Event.goBack finishedView))).runButton.sensitive = true) :=
  ⟨rfl,
   C10_goback_disables_until_reenter finishedView [Event.runClick] none rfl
     (by
       intro e he r
       rw [List.mem_singleton] at he
       subst he
       exact fun hco => Event.noConfusion hco)⟩

end Shredder
